import Mathlib

/-!
Shallow embedding of the media assembly pipeline of the repository
(backend/core/video_engine/advanced_video_builder.py and
backend/core/video_engine/video_builder.py), together with theorems that
settle the frozen claims about its specification.

External effects (subprocess invocations of the transcoding engine, the
filesystem) are modelled by explicit oracle records whose fields give the
outcome of each external call; the control flow around those calls is
translated directly from the Python source.
-/

namespace VideoEngine

/-- Python exceptions as classified by backend/utils/error_handler.py:
a plain Exception, a NonRetryableError, or a RetryableError. -/
inductive PyError where
  | exn (msg : String)
  | nonRetryable (msg : String)
  | retryable (msg : String)
deriving DecidableEq

/-- Outcomes of the external calls made by the encoder probe
(check_gpu_acceleration / get_optimal_encoder): whether the
encoder-listing query succeeds, which encoder names it lists, which
encoders pass the one-second synthetic test encode, and which encoders
make a real transcode succeed. -/
structure FfmpegEnv where
  encodersQueryOk : Bool
  listedEncoders : List String
  syntheticTestPasses : String → Bool
  transcodePasses : String → Bool

/-- check_gpu_acceleration: runs the encoder-listing query and looks for
h264_nvenc or h264_amf in its stdout; any failure of the query yields
False. -/
def check_gpu_acceleration (env : FfmpegEnv) : Bool :=
  env.encodersQueryOk &&
    (env.listedEncoders.contains "h264_nvenc" || env.listedEncoders.contains "h264_amf")

/-- The candidate loop of get_optimal_encoder: test each encoder with a
synthetic encode and return the first that passes, together with the
number of synthetic tests run; when none passes, the code logs a warning
and returns "libx264" untested. -/
def try_encoders : List String → (String → Bool) → String × Nat
  | [], _ => ("libx264", 0)
  | e :: rest, test =>
    if test e then (e, 1)
    else
      let r := try_encoders rest test
      (r.1, r.2 + 1)

/-- get_optimal_encoder: pick the candidate list from the GPU check, then
run the candidate loop.  The second component counts the synthetic test
encodes performed by this one call. -/
def get_optimal_encoder (env : FfmpegEnv) : String × Nat :=
  let encoders :=
    if check_gpu_acceleration env then ["h264_nvenc", "h264_amf", "libx264"]
    else ["libx264"]
  try_encoders encoders env.syntheticTestPasses

/-- Two successive calls of get_optimal_encoder in the same process:
the pair of results and the total number of synthetic tests run. -/
def probe_twice (env : FfmpegEnv) : (String × String) × Nat :=
  let r1 := get_optimal_encoder env
  let r2 := get_optimal_encoder env
  ((r1.1, r2.1), r1.2 + r2.2)

/-- An environment in which the GPU listing shows h264_nvenc and its
synthetic test passes. -/
def env_gpu_ok : FfmpegEnv where
  encodersQueryOk := true
  listedEncoders := ["h264_nvenc"]
  syntheticTestPasses := fun e => e == "h264_nvenc"
  transcodePasses := fun _ => true

/-- An environment in which every synthetic test encode fails. -/
def env_all_fail : FfmpegEnv where
  encodersQueryOk := true
  listedEncoders := ["h264_nvenc"]
  syntheticTestPasses := fun _ => false
  transcodePasses := fun _ => false

/-- The candidate loop runs at least one synthetic test on a nonempty
candidate list. -/
lemma try_encoders_pos (e : String) (rest : List String) (test : String → Bool) :
    1 ≤ (try_encoders (e :: rest) test).2 := by
  rw [try_encoders]
  split
  · exact le_refl 1
  · exact Nat.le_add_left 1 _

/-- Claim C6, corrected.  get_optimal_encoder is deterministic, so two
calls in the same process (with an unchanged machine environment) return
the same encoder; but its result is not memoized: each call performs at
least one synthetic test encode, and two calls perform exactly twice the
synthetic tests of one call. -/
theorem probe_deterministic_not_memoized (env : FfmpegEnv) :
    (probe_twice env).1.1 = (probe_twice env).1.2 ∧
    (probe_twice env).2 = 2 * (get_optimal_encoder env).2 ∧
    1 ≤ (get_optimal_encoder env).2 := by
  refine ⟨rfl, ?_, ?_⟩
  · show (get_optimal_encoder env).2 + (get_optimal_encoder env).2 = _
    ring
  · rw [get_optimal_encoder]
    split
    · exact try_encoders_pos _ _ _
    · exact try_encoders_pos _ _ _

/-- Claim C6, counterexample.  In an environment where the first probe
finds a working hardware encoder with a single synthetic test, calling the
probe twice performs two synthetic tests in total, contradicting the
claim that the synthetic test is performed at most once across both
calls; the two calls do return the same encoder. -/
theorem probe_twice_retests_counterexample :
    probe_twice env_gpu_ok = (("h264_nvenc", "h264_nvenc"), 2) ∧ ¬ ((2 : Nat) ≤ 1) := by
  exact ⟨rfl, by decide⟩

/-- Claim C7, corrected (amended form).  When no encoder candidate passes
the synthetic test encode — the software baseline libx264 included — the
probe does not raise any error: it logs a warning and returns the string
"libx264" anyway, untested.  (No EncoderUnavailableError exists anywhere
in the repository.) -/
theorem all_fail_returns_libx264 (env : FfmpegEnv)
    (h : ∀ e, env.syntheticTestPasses e = false) :
    (get_optimal_encoder env).1 = "libx264" := by
  rw [get_optimal_encoder]
  split <;> simp [try_encoders, h]

/-- Witness for the amended claim C7 at a concrete environment. -/
theorem all_fail_returns_libx264_witness :
    (get_optimal_encoder env_all_fail).1 = "libx264" :=
  all_fail_returns_libx264 env_all_fail (fun _ => rfl)

/-- Claim C7, counterexample.  In the all-fail environment the probe
returns the encoder profile "libx264" — whose own synthetic test failed —
rather than raising a job-fatal error, refuting the claim that an
EncoderUnavailableError is raised rather than a profile returned. -/
theorem all_fail_counterexample :
    (get_optimal_encoder env_all_fail).1 = "libx264" ∧
    env_all_fail.syntheticTestPasses "libx264" = false :=
  ⟨rfl, rfl⟩

/-- Whether retry_with_backoff refuses to retry an error
(only NonRetryableError is refused; a plain Exception is retried). -/
def is_non_retryable : PyError → Bool
  | .nonRetryable _ => true
  | _ => false

/-- The attempt loop of the retry_with_backoff decorator
(backend/utils/error_handler.py), instrumented with a trace: each attempt
yields a tag (here: the encoder it used) and a result.  fuel counts the
retries still allowed; at fuel 0 (attempt == max_retries) the error is
re-raised; a NonRetryableError is re-raised immediately; any other
exception leads to a further attempt. -/
def retry_trace_from {σ α : Type} (f : Nat → σ × Except PyError α) :
    Nat → Nat → List σ × Except PyError α
  | attempt, 0 => ([(f attempt).1], (f attempt).2)
  | attempt, fuel + 1 =>
    match (f attempt).2 with
    | .ok a => ([(f attempt).1], .ok a)
    | .error e =>
      if is_non_retryable e then ([(f attempt).1], .error e)
      else
        let rest := retry_trace_from f (attempt + 1) fuel
        ((f attempt).1 :: rest.1, rest.2)

/-- retry_with_backoff(max_retries) starts at attempt 0 with max_retries
further attempts allowed. -/
def retry_with_backoff_trace {σ α : Type} (max_retries : Nat)
    (f : Nat → σ × Except PyError α) : List σ × Except PyError α :=
  retry_trace_from f 0 max_retries

/-- One execution of the body of build_video_gpu_accelerated, seen at the
granularity claim C1 needs: the attempt selects an encoder with
get_optimal_encoder and then succeeds or raises a plain Exception
according to whether a transcode with that encoder succeeds.  The tag
records the encoder the attempt used. -/
def gpu_build_attempt (env : FfmpegEnv) (output_path : String) :
    String × Except PyError String :=
  let encoder := (get_optimal_encoder env).1
  (encoder,
    if env.transcodePasses encoder then .ok output_path
    else .error (.exn "Final video creation failed"))

/-- build_video_gpu_accelerated is decorated with
retry_with_backoff(max_retries := 2); every attempt re-runs the same
body, re-selecting the encoder with the same probe. -/
def build_video_gpu_accelerated (env : FfmpegEnv) (output_path : String) :
    List String × Except PyError String :=
  retry_with_backoff_trace 2 (fun _ => gpu_build_attempt env output_path)

/-- The GPU export attempt of build_video (video_builder.py): try
write_videofile with the hardware encoder h264_nvenc; on any exception
fall back, exactly once, to write_videofile with the software encoder
libx264, whose failure propagates.  Returns the list of encoders
attempted and the outcome. -/
def build_video_export (nvenc_ok libx_ok : Bool) :
    List String × Except PyError String :=
  if nvenc_ok then (["h264_nvenc"], .ok "output/reel.mp4")
  else if libx_ok then (["h264_nvenc", "libx264"], .ok "output/reel.mp4")
  else (["h264_nvenc", "libx264"], .error (.exn "CPU encoding failed"))

/-- An environment in which the hardware encoder is listed and passes its
synthetic test, every real transcode with it fails (a non-timeout
failure), and a real transcode with libx264 would succeed. -/
def env_hw_fail : FfmpegEnv where
  encodersQueryOk := true
  listedEncoders := ["h264_nvenc"]
  syntheticTestPasses := fun e => e == "h264_nvenc"
  transcodePasses := fun e => e == "libx264"

/-- A constant attempt body produces a trace of copies of its tag, of
length at most fuel + 1. -/
lemma retry_trace_from_const {α : Type} (sv : String) (r : Except PyError α) :
    ∀ (fuel attempt : Nat),
      ((retry_trace_from (fun _ => (sv, r)) attempt fuel).1.all (fun e => e == sv)) = true ∧
      (retry_trace_from (fun _ => (sv, r)) attempt fuel).1.length ≤ fuel + 1 := by
  intro fuel
  induction fuel with
  | zero => intro attempt; simp [retry_trace_from]
  | succ n ih =>
    intro attempt
    rw [retry_trace_from]
    match r with
    | .ok a => simp
    | .error e =>
      by_cases hnr : is_non_retryable e = true
      · simp [hnr]
      · simp only [Bool.not_eq_true] at hnr
        simp only [hnr, Bool.false_eq_true, if_false, List.all_cons, List.length_cons]
        refine ⟨?_, ?_⟩
        · simp [(ih (attempt + 1)).1]
        · exact Nat.succ_le_succ (ih (attempt + 1)).2

/-- Claim C1, corrected (amended form).  In the moviepy-based
build_video, a failed hardware export triggers exactly one libx264
fallback attempt (one libx264 attempt when the nvenc attempt fails, zero
otherwise).  In build_video_gpu_accelerated there is no forced software
fallback: every attempt made by its retry decorator uses the encoder the
probe selects (the same one each time, the environment being unchanged),
and at most three attempts are made. -/
theorem fallback_retry_counts (nvenc_ok libx_ok : Bool) (env : FfmpegEnv)
    (output_path : String) :
    (build_video_export nvenc_ok libx_ok).1.count "libx264" =
      (if nvenc_ok then 0 else 1) ∧
    ((build_video_gpu_accelerated env output_path).1.all
      (fun e => e == (get_optimal_encoder env).1)) = true ∧
    (build_video_gpu_accelerated env output_path).1.length ≤ 3 := by
  refine ⟨?_, ?_, ?_⟩
  · cases nvenc_ok <;> cases libx_ok <;> simp [build_video_export]
  · exact (retry_trace_from_const (get_optimal_encoder env).1
      (gpu_build_attempt env output_path).2 2 0).1
  · exact (retry_trace_from_const (get_optimal_encoder env).1
      (gpu_build_attempt env output_path).2 2 0).2

/-- Claim C1, counterexample.  With a hardware encoder that passes its
synthetic test but fails every real transcode with a non-timeout
TranscodeFailedError — while libx264 would have succeeded — the
GPU-accelerated build performs three attempts, all with h264_nvenc,
performs zero fallback retries with the software encoder, and fails;
the claim requires exactly one software-encoder retry, never zero. -/
theorem hw_failure_retries_without_software_fallback :
    (build_video_gpu_accelerated env_hw_fail "out.mp4").1 =
      ["h264_nvenc", "h264_nvenc", "h264_nvenc"] ∧
    (build_video_gpu_accelerated env_hw_fail "out.mp4").1.count "libx264" = 0 ∧
    (build_video_gpu_accelerated env_hw_fail "out.mp4").2 =
      .error (.exn "Final video creation failed") ∧
    env_hw_fail.transcodePasses "libx264" = true := by
  refine ⟨rfl, rfl, rfl, rfl⟩

/-- Outcomes of the external steps of one execution of the body of
build_video_gpu_accelerated: the background analysis, the background
video-processing command, the subtitle-file write, the final combine
command, and existence and size of the produced output file. -/
structure GpuOracle where
  analyzeOk : Bool
  videoCmdOk : Bool
  subtitleWriteOk : Bool
  finalCmdOk : Bool
  outputExists : Bool
  outputSize : Nat
deriving DecidableEq

/-- The temporary visual-track file created by build_video_gpu_accelerated. -/
def temp_video : String := "temp/temp_video.mp4"

/-- The temporary subtitle file created by build_video_gpu_accelerated. -/
def temp_subtitles : String := "temp/temp_subs.ass"

/-- The temporary visual-track file created by combine_components. -/
def temp_visual : String := "temp/visual.mp4"

/-- The pattern of the cleanup code: if temp_file.exists(), unlink it. -/
def unlink_if_exists (files : List String) (f : String) : List String :=
  if f ∈ files then files.filter (fun g => g ≠ f) else files

/-- The finally block of build_video_gpu_accelerated: remove each of the
two temp files that exists. -/
def cleanup_temps (files : List String) : List String :=
  unlink_if_exists (unlink_if_exists files temp_video) temp_subtitles

/-- One execution of build_video_gpu_accelerated under a step oracle,
threading the set of temporary files present.  Each ffmpeg invocation may
leave its output file behind whether or not it succeeds, so a temp file
counts as present from its creating step on; the finally block is applied
to the file set of whichever branch terminates the run, the validation
and error branches included. -/
def build_video_gpu_run (o : GpuOracle) (output_path : String) :
    Except PyError String × List String :=
  if ¬ o.analyzeOk then
    -- analyze_background_video raises before any temp file is created
    (.error (.retryable "Video analysis failed"), [])
  else
    let run : Except PyError String × List String :=
      let files1 := [temp_video]
      if ¬ o.videoCmdOk then (.error (.exn "Video processing failed"), files1)
      else if ¬ o.subtitleWriteOk then
        (.error (.exn "subtitle write failed"), files1 ++ [temp_subtitles])
      else
        let files2 := files1 ++ [temp_subtitles]
        if ¬ o.finalCmdOk then (.error (.exn "Final video creation failed"), files2)
        else if ¬ o.outputExists ∨ o.outputSize < 1000 then
          (.error (.exn "Output video is invalid or too small"), files2)
        else (.ok output_path, files2)
    (run.1, cleanup_temps run.2)

/-- Outcomes of the external steps of one execution of
combine_components: the background analysis, the visual-track command
(run with check=True), the return code of the final mix command, and the
size of the produced output file — which the function never inspects. -/
structure CombineOracle where
  analyzeOk : Bool
  visualCmdOk : Bool
  finalReturncode : Int
  outputSize : Nat
deriving DecidableEq

/-- One execution of combine_components under a step oracle.  A zero
return code of the final mix command leads directly to returning the
output path: no output-validation step follows; the finally block removes
the temporary visual track on every branch. -/
def combine_components_run (o : CombineOracle) (output_path : String) :
    Except PyError String × List String :=
  let run : Except PyError String × List String :=
    if ¬ o.analyzeOk then (.error (.retryable "Video analysis failed"), [])
    else
      let files1 := [temp_visual]
      if ¬ o.visualCmdOk then (.error (.exn "cmd_visual failed"), files1)
      else if o.finalReturncode ≠ 0 then (.error (.exn "Final mix failed"), files1)
      else (.ok output_path, files1)
  (run.1, unlink_if_exists run.2 temp_visual)

/-- Unlinking a file removes it from the file set. -/
lemma not_mem_unlink_self (files : List String) (f : String) :
    f ∉ unlink_if_exists files f := by
  rw [unlink_if_exists]
  split
  · intro hmem
    have := (List.mem_filter.mp hmem).2
    simp at this
  · assumption

/-- Unlinking one file creates no other file. -/
lemma not_mem_unlink_of_not_mem (files : List String) (f g : String)
    (h : g ∉ files) : g ∉ unlink_if_exists files f := by
  rw [unlink_if_exists]
  split
  · intro hmem
    exact h (List.mem_filter.mp hmem).1
  · exact h

/-- Claim C2, confirmed.  On every exit path of
build_video_gpu_accelerated — normal return, failed step, or failed
output validation — the temporary visual track and the temporary subtitle
file are gone when the call returns or the error propagates, and likewise
for the temporary visual track of combine_components. -/
theorem cleanup_on_all_paths (o : GpuOracle) (oc : CombineOracle)
    (p q : String) :
    temp_video ∉ (build_video_gpu_run o p).2 ∧
    temp_subtitles ∉ (build_video_gpu_run o p).2 ∧
    temp_visual ∉ (combine_components_run oc q).2 := by
  refine ⟨?_, ?_, ?_⟩
  · rw [build_video_gpu_run]
    split
    · simp
    · exact not_mem_unlink_of_not_mem _ _ _ (not_mem_unlink_self _ _)
  · rw [build_video_gpu_run]
    split
    · simp
    · exact not_mem_unlink_self _ _
  · exact not_mem_unlink_self _ _

/-- Claim C8, corrected (amended form).  After a zero exit code of the
final command, build_video_gpu_accelerated still validates the output
file and fails whenever it is missing or smaller than 1000 bytes;
combine_components, however, declares success on the zero exit code
alone, whatever the state of the output file. -/
theorem output_validation_split (ex : Bool) (sz : Nat) (p : String)
    (h : ex = false ∨ sz < 1000) :
    (build_video_gpu_run ⟨true, true, true, true, ex, sz⟩ p).1 =
      .error (.exn "Output video is invalid or too small") ∧
    (combine_components_run ⟨true, true, 0, sz⟩ p).1 = .ok p := by
  constructor
  · rcases h with hex | hsz
    · subst hex
      rw [build_video_gpu_run]
      simp [cleanup_temps]
    · rw [build_video_gpu_run]
      simp [hsz, cleanup_temps]
  · rw [combine_components_run]
    simp

/-- Witness for the amended claim C8, exercising both validation
branches: the 400-byte undersized output after a zero exit, and a
missing output file after a zero exit. -/
theorem output_validation_split_witness :
    ((build_video_gpu_run ⟨true, true, true, true, true, 400⟩ "reel.mp4").1 =
      .error (.exn "Output video is invalid or too small") ∧
     (combine_components_run ⟨true, true, 0, 400⟩ "reel.mp4").1 = .ok "reel.mp4") ∧
    (build_video_gpu_run ⟨true, true, true, true, false, 5000⟩ "reel.mp4").1 =
      .error (.exn "Output video is invalid or too small") :=
  ⟨output_validation_split true 400 "reel.mp4" (Or.inr (by decide)),
   (output_validation_split false 5000 "reel.mp4" (Or.inl rfl)).1⟩

/-- Claim C8, counterexample.  combine_components reports success for a
zero exit code with a 400-byte output file — below the 1000-byte
threshold — refuting the claim that such a build is never reported as a
success. -/
theorem combine_zero_exit_success_counterexample :
    (combine_components_run ⟨true, true, 0, 400⟩ "reel.mp4").1 = .ok "reel.mp4" ∧
    400 < 1000 := by
  exact ⟨rfl, by decide⟩

/-- The loop count computed when the background is shorter than the
target: int(target_duration / duration) + 1.  Python int() truncates
toward zero, which on the positive operands used here is the floor. -/
def loop_count (target_duration d : ℚ) : ℤ :=
  ⌊target_duration / d⌋ + 1

/-- combine_components trims the looped visual track with
-t target_duration: to the target duration exactly, with no buffer. -/
def combine_trim_to (target_duration : ℚ) : ℚ :=
  target_duration

/-- build_video_gpu_accelerated trims the looped visual track with
-t (voiceover_duration + 1): a one-second buffer. -/
def gpu_trim_to (voiceover_duration : ℚ) : ℚ :=
  voiceover_duration + 1

/-- The duration of the visual track combine_components produces:
-stream_loop n plays the input n + 1 times when the background is shorter
than the target, and -t caps the output at the target duration. -/
def effective_visual_duration (target_duration d : ℚ) : ℚ :=
  if d < target_duration then
    min (d * ((loop_count target_duration d : ℤ) + 1 : ℤ)) target_duration
  else min d target_duration

/-- The floor of 20 / 8. -/
lemma floor_twenty_eighths : ⌊(20 : ℚ) / 8⌋ = 2 := by
  rw [Int.floor_eq_iff] <;> norm_num

/-- The ceiling of 20 / 8. -/
lemma ceil_twenty_eighths : ⌈(20 : ℚ) / 8⌉ = 3 := by
  rw [Int.ceil_eq_iff] <;> norm_num

/-- The loop count alone already covers the target duration strictly. -/
lemma loop_count_covers (target_duration d : ℚ) (hd : 0 < d) :
    target_duration < d * (loop_count target_duration d : ℚ) := by
  have h := Int.lt_floor_add_one (target_duration / d)
  have h2 : target_duration / d < ((loop_count target_duration d : ℤ) : ℚ) := by
    rw [loop_count]
    push_cast
    exact h
  calc target_duration = d * (target_duration / d) := by field_simp
    _ < d * ((loop_count target_duration d : ℤ) : ℚ) := by
        exact mul_lt_mul_of_pos_left h2 hd

/-- Claim C3, corrected (amended form).  For a background shorter than
the target, the loop count is floor(target / d) + 1 — the floor, not the
ceiling — and that count already covers the target; the looped track is
then trimmed to exactly the target duration in combine_components and to
the target plus a one-second buffer in build_video_gpu_accelerated.  For
narration 20.0 s and background 8.0 s the loop count is 3 and the trimmed
duration is 20.0 s respectively 21.0 s. -/
theorem loop_count_floor_formula (t d : ℚ) (hd : 0 < d) (hdt : d < t) :
    loop_count t d = ⌊t / d⌋ + 1 ∧
    t < d * (loop_count t d : ℚ) ∧
    combine_trim_to t = t ∧
    gpu_trim_to t = t + 1 ∧
    loop_count 20 8 = 3 ∧
    combine_trim_to 20 = 20 ∧
    gpu_trim_to 20 = 21 := by
  exact ⟨rfl, loop_count_covers t d hd, rfl, rfl,
    by rw [loop_count, floor_twenty_eighths]; decide, rfl, by norm_num [gpu_trim_to]⟩

/-- Witness for the amended claim C3 at the 20 s / 8 s scenario. -/
theorem loop_count_floor_formula_witness :
    loop_count 20 8 = ⌊(20 : ℚ) / 8⌋ + 1 ∧
    (20 : ℚ) < 8 * (loop_count 20 8 : ℚ) ∧
    combine_trim_to 20 = 20 ∧
    gpu_trim_to 20 = 20 + 1 ∧
    loop_count 20 8 = 3 ∧
    combine_trim_to 20 = 20 ∧
    gpu_trim_to 20 = 21 :=
  loop_count_floor_formula 20 8 (by norm_num) (by norm_num)

/-- Claim C3, counterexample.  At narration 20.0 s and background 8.0 s
the code computes loop count 3 while the claimed formula
ceil(t / d) + 1 gives 4, and neither trim (20.0 s in combine_components,
21.0 s in the GPU build) equals the claimed 21.5 s. -/
theorem loop_count_scenario_counterexample :
    loop_count 20 8 = 3 ∧
    ⌈(20 : ℚ) / 8⌉ + 1 = 4 ∧
    loop_count 20 8 ≠ ⌈(20 : ℚ) / 8⌉ + 1 ∧
    combine_trim_to 20 ≠ 20 + 3 / 2 ∧
    gpu_trim_to 20 ≠ 20 + 3 / 2 := by
  refine ⟨by rw [loop_count, floor_twenty_eighths]; decide,
    by rw [ceil_twenty_eighths]; decide,
    by rw [loop_count, floor_twenty_eighths, ceil_twenty_eighths]; decide,
    ?_, ?_⟩ <;> norm_num [combine_trim_to, gpu_trim_to]

/-- Claim C4, confirmed.  For every positive target duration and every
positive background duration, the visual track that duration
reconciliation produces — looping when the background is shorter, then
trimming — has effective duration at least the target duration (it is in
fact exactly the target duration). -/
theorem reconciled_duration_covers_target (t d : ℚ) (ht : 0 < t) (hd : 0 < d) :
    t ≤ effective_visual_duration t d := by
  rw [effective_visual_duration]
  split
  · next hlt =>
    refine le_min ?_ (le_refl t)
    have hcov := loop_count_covers t d hd
    have hstep : d * (loop_count t d : ℚ) ≤ d * ((loop_count t d + 1 : ℤ) : ℚ) := by
      push_cast
      nlinarith
    calc t ≤ d * (loop_count t d : ℚ) := le_of_lt hcov
      _ ≤ _ := hstep
  · next hge =>
    push_neg at hge
    exact le_min hge (le_refl t)

/-- Witness for claim C4 at the 20 s / 8 s scenario. -/
theorem reconciled_duration_covers_target_witness :
    (20 : ℚ) ≤ effective_visual_duration 20 8 :=
  reconciled_duration_covers_target 20 8 (by norm_num) (by norm_num)

/-- combine_components escapes the subtitle path for the filter graph:
backslashes become forward slashes, then colons are escaped. -/
def escape_subtitle_path (p : String) : String :=
  (p.replace "\\" "/").replace ":" "\\:"

/-- The duration option of the external amix filter. -/
inductive AmixDurationPolicy where
  | longest
  | shortest
  | first
deriving DecidableEq

/-- Output duration of the external amix filter for two inputs, by its
duration option; the graph built by combine_components uses the first
policy, under which the first input governs.  Modelled from the external
transcoding engine contract the spec states for audio mixing. -/
def amix_output_duration : AmixDurationPolicy → ℚ → ℚ → ℚ
  | .first, d1, _ => d1
  | .longest, d1, d2 => max d1 d2
  | .shortest, d1, d2 => min d1 d2

/-- The filter_complex expression combine_components builds: with music,
the music stream [2:a] is attenuated with volume=0.1, then mixed with the
narration [1:a] — narration first — under amix duration=first, and the
subtitles are burnt into the video; without music, only the subtitle
burn-in. -/
def filter_complex (has_music : Bool) (sub_path_str : String) : String :=
  if has_music then
    "[2:a]volume=0.1[music];[1:a][music]amix=inputs=2:duration=first[aout];[0:v]subtitles=\x27"
      ++ sub_path_str ++ "\x27[vout]"
  else
    "[0:v]subtitles=\x27" ++ sub_path_str ++ "\x27[vout]"

/-- The stream mapping combine_components selects: with music, the
filter-graph pads; without music, the narration stream 1:a directly. -/
def map_options (has_music : Bool) : List String :=
  if has_music then ["-map", "[vout]", "-map", "[aout]"]
  else ["-map", "[vout]", "-map", "1:a"]

/-- The duration of the audio track combine_components produces, by the
branch taken: the amix output under the first-input policy with the
narration as first input when music is present, the narration stream
itself otherwise. -/
def final_audio_duration (has_music : Bool) (narration_duration music_duration : ℚ) : ℚ :=
  if has_music then amix_output_duration .first narration_duration music_duration
  else narration_duration

/-- The music attenuation factor of the with-music graph (volume=0.1). -/
def music_volume_factor : ℚ := 1 / 10

/-- Claim C9, confirmed.  With music present the built graph attenuates
the music stream by the fixed factor 0.1 (the −20 dB equivalent:
0.1 = 10 ^ (−20 / 20)) and mixes narration first under amix
duration=first, so the mixed audio duration equals the narration duration
whatever the music duration; without music the narration stream 1:a is
mapped through with no mixing filter in the graph. -/
theorem audio_mix_graph_facts (p : String) (n m : ℚ) :
    filter_complex true p =
      "[2:a]volume=0.1[music];[1:a][music]amix=inputs=2:duration=first[aout];[0:v]subtitles=\x27"
        ++ p ++ "\x27[vout]" ∧
    map_options true = ["-map", "[vout]", "-map", "[aout]"] ∧
    filter_complex false p = "[0:v]subtitles=\x27" ++ p ++ "\x27[vout]" ∧
    map_options false = ["-map", "[vout]", "-map", "1:a"] ∧
    final_audio_duration true n m = n ∧
    final_audio_duration false n m = n ∧
    music_volume_factor = (10 : ℚ) ^ (-((20 : ℤ) / 20)) := by
  refine ⟨rfl, rfl, rfl, rfl, rfl, rfl, ?_⟩
  norm_num [music_volume_factor]

/-- A static quality preset of AdvancedVideoBuilder. -/
structure QualityPreset where
  width : Nat
  height : Nat
  fps : Nat
  bitrate : String
  crf : Nat
deriving DecidableEq

/-- The ultra preset: 1080x1920 at 60 fps. -/
def ultra_preset : QualityPreset := ⟨1080, 1920, 60, "4M", 18⟩

/-- The high preset: 1080x1920 at 30 fps. -/
def high_preset : QualityPreset := ⟨1080, 1920, 30, "2M", 23⟩

/-- The medium preset: 720x1280 at 30 fps. -/
def medium_preset : QualityPreset := ⟨720, 1280, 30, "1M", 28⟩

/-- The fast preset: 540x960 at 24 fps. -/
def fast_preset : QualityPreset := ⟨540, 960, 24, "500k", 32⟩

/-- The quality_presets dictionary of AdvancedVideoBuilder. -/
def quality_presets (name : String) : Option QualityPreset :=
  if name = "ultra" then some ultra_preset
  else if name = "high" then some high_preset
  else if name = "medium" then some medium_preset
  else if name = "fast" then some fast_preset
  else none

/-- build_video_gpu_accelerated resolves its quality argument with
quality_presets.get(quality, quality_presets["high"]): a missing key
falls back to the high preset. -/
def preset_for (quality : String) : QualityPreset :=
  (quality_presets quality).getD high_preset

/-- Claim C10, confirmed.  Every quality string resolves to one of the
four enumerated presets, and any string outside {ultra, high, medium,
fast} silently resolves to the high preset — 1080x1920 at 30 fps —
without an error. -/
theorem quality_preset_fallback (q : String) :
    preset_for q ∈ [ultra_preset, high_preset, medium_preset, fast_preset] ∧
    (q ∉ (["ultra", "high", "medium", "fast"] : List String) →
      preset_for q = high_preset ∧ high_preset.width = 1080 ∧
      high_preset.height = 1920 ∧ high_preset.fps = 30) := by
  constructor
  · rw [preset_for, quality_presets]
    split_ifs <;> simp
  · intro h
    simp only [List.mem_cons, List.mem_singleton, not_or] at h
    obtain ⟨h1, h2, h3, h4, -⟩ := h
    rw [preset_for, quality_presets]
    simp [h1, h2, h3, h4]
    exact ⟨rfl, rfl, rfl⟩

/-- Witness for claim C10 at the unrecognized quality string "vhs". -/
theorem quality_preset_fallback_witness :
    preset_for "vhs" = high_preset ∧ high_preset.width = 1080 ∧
    high_preset.height = 1920 ∧ high_preset.fps = 30 :=
  (quality_preset_fallback "vhs").2 (by decide)

/-- A timed subtitle chunk as produced by create_dynamic_subtitles
(the niche style keys merged into the chunk afterwards carry no timing
information and are omitted). -/
structure SubtitleChunk where
  text : String
  start : ℚ
  endTime : ℚ
  duration : ℚ
deriving DecidableEq

/-- Python str.split() with no argument: split on runs of whitespace,
dropping empty tokens.  Written with a character-count fuel so that the
recursion is structural; the fuel never runs out when it starts at the
length of the character list. -/
def split_ws_fuel : Nat → List Char → List String
  | 0, _ => []
  | _ + 1, [] => []
  | fuel + 1, c :: rest =>
    if c.isWhitespace then split_ws_fuel fuel rest
    else
      String.mk (c :: rest.takeWhile (fun d => !d.isWhitespace))
        :: split_ws_fuel fuel (rest.dropWhile (fun d => !d.isWhitespace))

/-- script.split() of create_dynamic_subtitles. -/
def split_words (script : String) : List String :=
  split_ws_fuel script.toList.length script.toList

/-- The speaking rate of create_dynamic_subtitles: 2.5 words per second
by default, adjusted to 2.2 for motivation and 2.8 for facts. -/
def words_per_second (niche : String) : ℚ :=
  if niche = "motivation" then 11 / 5
  else if niche = "facts" then 14 / 5
  else 5 / 2

/-- One subtitle chunk for the words ws starting at word index i:
start = i * word_duration, end = min((i + len(ws)) * word_duration,
duration), text the space-joined words. -/
def mk_chunk (word_duration dur : ℚ) (ws : List String) (i : Nat) : SubtitleChunk :=
  let start := (i : ℚ) * word_duration
  let e := min (((i + ws.length : ℕ) : ℚ) * word_duration) dur
  ⟨String.intercalate " " ws, start, e, e - start⟩

/-- The chunking loop of create_dynamic_subtitles: for i in
range(0, len(words), 4), one chunk per group of four words, the final
group possibly shorter. -/
def chunkWords (word_duration dur : ℚ) : List String → Nat → List SubtitleChunk
  | [], _ => []
  | a :: b :: c :: d :: rest, i =>
    mk_chunk word_duration dur [a, b, c, d] i
      :: chunkWords word_duration dur rest (i + 4)
  | ws, i => [mk_chunk word_duration dur ws i]

/-- create_dynamic_subtitles: split the script, return no chunks for an
empty word list, otherwise chunk with word_duration = 1 / rate. -/
def create_dynamic_subtitles (script niche : String) (duration : ℚ) :
    List SubtitleChunk :=
  if (split_words script).length = 0 then []
  else chunkWords (1 / words_per_second niche) duration (split_words script) 0

/-- Every chunk the chunking loop produces ends no later than the target
duration. -/
lemma chunkWords_end_le (wd dur : ℚ) :
    ∀ (ws : List String) (i : Nat) (c : SubtitleChunk),
      c ∈ chunkWords wd dur ws i → c.endTime ≤ dur := by
  intro ws
  match ws with
  | [] => intro i c hc; simp [chunkWords] at hc
  | [a] =>
    intro i c hc
    simp only [chunkWords, List.mem_singleton] at hc
    subst hc; exact min_le_right _ _
  | [a, b] =>
    intro i c hc
    simp only [chunkWords, List.mem_singleton] at hc
    subst hc; exact min_le_right _ _
  | [a, b, c0] =>
    intro i c hc
    simp only [chunkWords, List.mem_singleton] at hc
    subst hc; exact min_le_right _ _
  | a :: b :: c0 :: d :: rest =>
    intro i c hc
    simp only [chunkWords, List.mem_cons] at hc
    rcases hc with h | h
    · subst h; exact min_le_right _ _
    · exact chunkWords_end_le wd dur rest (i + 4) c h

/-- The first chunk of a nonempty chunking starts at i * word_duration. -/
lemma chunkWords_head_start (wd dur : ℚ) :
    ∀ (ws : List String) (i : Nat), ws ≠ [] →
      ((chunkWords wd dur ws i).head?).map SubtitleChunk.start =
        some ((i : ℚ) * wd) := by
  intro ws
  match ws with
  | [] => intro i h; exact absurd rfl h
  | [a] => intro i _; simp [chunkWords, mk_chunk]
  | [a, b] => intro i _; simp [chunkWords, mk_chunk]
  | [a, b, c] => intro i _; simp [chunkWords, mk_chunk]
  | a :: b :: c :: d :: rest => intro i _; simp [chunkWords, mk_chunk]

/-- When the whole script fits into the target duration — that is,
(i + number of words remaining) * word_duration stays at most the
duration — consecutive chunks are contiguous: each ends exactly where the
next starts. -/
lemma chunkWords_chain (wd dur : ℚ) (hwd : 0 ≤ wd) :
    ∀ (ws : List String) (i : Nat),
      (((i + ws.length : ℕ) : ℚ) * wd ≤ dur) →
      List.Chain' (fun x y => x.endTime = y.start) (chunkWords wd dur ws i) := by
  intro ws
  match ws with
  | [] => intro i _; simp [chunkWords]
  | [a] => intro i _; simp [chunkWords]
  | [a, b] => intro i _; simp [chunkWords]
  | [a, b, c] => intro i _; simp [chunkWords]
  | a :: b :: c :: d :: rest =>
    intro i hcov
    rw [chunkWords]
    apply List.chain'_cons'.mpr
    constructor
    · intro y hy
      match rest with
      | [] => simp [chunkWords] at hy
      | r :: rs =>
        have hh := chunkWords_head_start wd dur (r :: rs) (i + 4) (by simp)
        rw [Option.mem_def] at hy
        rw [hy] at hh
        simp only [Option.map_some', Option.some.injEq] at hh
        have hy_start : y.start = ((i + 4 : ℕ) : ℚ) * wd := hh
        have hle : ((i + 4 : ℕ) : ℚ) * wd ≤ dur := by
          refine le_trans ?_ hcov
          apply mul_le_mul_of_nonneg_right ?_ hwd
          have h5 : (a :: b :: c :: d :: r :: rs).length = rs.length + 5 := by
            simp [List.length_cons]
          rw [h5]
          push_cast
          linarith [Nat.cast_nonneg (α := ℚ) rs.length]
        have hend : (mk_chunk wd dur [a, b, c, d] i).endTime =
            min (((i + 4 : ℕ) : ℚ) * wd) dur := rfl
        show (mk_chunk wd dur [a, b, c, d] i).endTime = y.start
        rw [hend, hy_start]
        exact min_eq_left hle
    · match rest with
      | [] => simp [chunkWords]
      | r :: rs =>
        apply chunkWords_chain wd dur hwd (r :: rs) (i + 4)
        have hlen2 : (i + 4) + (r :: rs).length =
            i + (a :: b :: c :: d :: r :: rs).length := by
          simp [List.length_cons]; omega
        rw [hlen2]
        exact hcov

/-- Claim C5, corrected (amended form).  For every script whose word list
is nonempty and whose total speaking time — word count times word
duration — is at most the target duration, the chunk sequence of
create_dynamic_subtitles is contiguous (each chunk ends exactly where the
next starts), non-overlapping, starts at 0, and every chunk (the last
included) ends at or before the target duration.  The fit hypothesis is
necessary: without it contiguity fails (see the counterexample). -/
theorem subtitle_chunks_contiguous (script niche : String) (dur : ℚ)
    (hne : split_words script ≠ [])
    (hfit : ((split_words script).length : ℚ) * (1 / words_per_second niche) ≤ dur) :
    List.Chain' (fun x y => x.endTime = y.start)
      (create_dynamic_subtitles script niche dur) ∧
    List.Chain' (fun x y => x.endTime ≤ y.start)
      (create_dynamic_subtitles script niche dur) ∧
    ((create_dynamic_subtitles script niche dur).head?).map SubtitleChunk.start =
      some 0 ∧
    ∀ c ∈ create_dynamic_subtitles script niche dur, c.endTime ≤ dur := by
  have hwps : 0 < words_per_second niche := by
    rw [words_per_second]; split_ifs <;> norm_num
  have hwd : 0 ≤ 1 / words_per_second niche := by positivity
  have hlen : ¬ ((split_words script).length = 0) := by
    simpa [List.length_eq_zero] using hne
  have hchain : List.Chain' (fun x y => x.endTime = y.start)
      (create_dynamic_subtitles script niche dur) := by
    rw [create_dynamic_subtitles]
    simp only [hlen, if_false]
    apply chunkWords_chain _ _ hwd _ 0
    push_cast
    simpa using hfit
  refine ⟨hchain, ?_, ?_, ?_⟩
  · exact List.Chain'.imp (fun x y h => le_of_eq h) hchain
  · rw [create_dynamic_subtitles]
    simp only [hlen, if_false]
    rw [chunkWords_head_start _ _ _ 0 hne]
    norm_num
  · intro c hc
    rw [create_dynamic_subtitles] at hc
    simp only [hlen, if_false] at hc
    exact chunkWords_end_le _ _ _ _ _ hc

/-- Witness for the amended claim C5 at the spec's scenario script
(8 words, rate 2.5 words/s, so 3.2 s of speech) with a 10-second target. -/
theorem subtitle_chunks_contiguous_witness :
    List.Chain' (fun x y => x.endTime = y.start)
      (create_dynamic_subtitles
        "Stop scrolling. This changed everything. Protect your peace." "finance" 10) :=
  (subtitle_chunks_contiguous
    "Stop scrolling. This changed everything. Protect your peace." "finance" 10
    (by decide)
    (by
      rw [show (split_words
        "Stop scrolling. This changed everything. Protect your peace.").length = 8
        from by decide]
      norm_num [words_per_second,
        show ("finance" : String) ≠ "motivation" from by decide,
        show ("finance" : String) ≠ "facts" from by decide])).1

/-- Claim C5, counterexample.  For the 8-word script below with target
duration 1 s (total speaking time 3.2 s), the second chunk starts at
1.6 s while the first chunk's end is clamped to 1 s: the sequence is not
contiguous, refuting the claim for arbitrary non-empty scripts and
positive target durations. -/
theorem subtitle_chunks_not_contiguous_counterexample :
    ¬ List.Chain' (fun x y => x.endTime = y.start)
      (create_dynamic_subtitles "a b c d e f g h" "finance" 1) := by
  have hs : split_words "a b c d e f g h" = ["a", "b", "c", "d", "e", "f", "g", "h"] := by
    decide
  rw [create_dynamic_subtitles, hs]
  norm_num [chunkWords, mk_chunk, words_per_second, List.chain'_cons,
    show ("finance" : String) ≠ "motivation" from by decide,
    show ("finance" : String) ≠ "facts" from by decide]

end VideoEngine
